import Mathlib

/-!
Shallow embedding of `pty_spawn.c` (native PTY spawner: `pty_spawn`,
`pty_open`, `pty_resize`, `pty_wait`) and proofs of the specification
claims about it.

The OS is abstracted by oracle values (outcomes of each syscall); every
function of the C file becomes a Lean function from its arguments and the
oracle to an explicit result record, recording the sequence of OS calls it
performs where a claim speaks about them.
-/

set_option linter.unusedVariables false

namespace PtySpawn

/-- errno value EINVAL on Linux. -/
def EINVAL : Nat := 22

/-! ## Exit waiter: status translation (`pty_wait`)

A raw wait status is the status word `waitpid` stores, modelled as the
nonnegative bit pattern of the C `int`.  The `WIF*` / `W*` forms below are
the glibc macro definitions used by the C file. -/

/-- glibc `WIFEXITED(s)`: the low 7 bits (`s & 0x7f`) are zero. -/
def WIFEXITED (s : Nat) : Bool := s % 128 == 0

/-- glibc `WEXITSTATUS(s)`: bits 8..15, i.e. `(s >> 8) & 0xff`. -/
def WEXITSTATUS (s : Nat) : Nat := (s / 256) % 256

/-- glibc `WIFSIGNALED(s)`: the low 7 bits are neither 0 (normal exit)
nor 0x7f (stopped). -/
def WIFSIGNALED (s : Nat) : Bool := decide (0 < s % 128) && decide (s % 128 < 127)

/-- glibc `WTERMSIG(s)`: the low 7 bits, `s & 0x7f`. -/
def WTERMSIG (s : Nat) : Nat := s % 128

/-- The status translation both branches of `pty_wait` apply to a raw
status before storing it into `*out_status`:
normal exit gives the exit code, signal termination gives `128 + sig`,
anything else gives the sentinel `-1`. -/
def translate_status (s : Nat) : Int :=
  if WIFEXITED s then (WEXITSTATUS s : Int)
  else if WIFSIGNALED s then 128 + (WTERMSIG s : Int)
  else -1

/-- Outcome of one `waitpid(pid, &status, WNOHANG)` poll: failure,
child still running (`waitpid` returned 0), or child terminated with the
given raw status. -/
inductive WaitPoll where
  | pollErr : WaitPoll
  | running : WaitPoll
  | exited (status : Nat) : WaitPoll
deriving DecidableEq

/-- Outcome of the single blocking `waitpid(pid, &status, 0)` of
infinite mode. -/
inductive BlockWait where
  | waitErr : BlockWait
  | done (status : Nat) : BlockWait
deriving DecidableEq

/-- Result of `pty_wait`, merging the C return value with `*out_status`:
`error` is return -1, `timeout` is return 1, `exited c` is return 0 with
`*out_status = c`. -/
inductive WaitRet where
  | error : WaitRet
  | timeout : WaitRet
  | exited (code : Int) : WaitRet
deriving DecidableEq

/-- The C return value a `WaitRet` stands for. -/
def WaitRet.retCode : WaitRet → Int
  | .error => -1
  | .timeout => 1
  | .exited _ => 0

/-- The bounded-mode polling loop of `pty_wait`
(`while (elapsed < timeout_ms) { waitpid(..., WNOHANG); ...; usleep(10000); elapsed += 10; }`).
`poll k` is the outcome of the k-th non-blocking `waitpid`; `k` counts the
polls already performed, so the second component of the result is the total
number of non-blocking polls issued. -/
def pty_wait_loop (poll : Nat → WaitPoll) (timeout_ms : Int) (elapsed : Int) (k : Nat) :
    WaitRet × Nat :=
  if elapsed < timeout_ms then
    match poll k with
    | .pollErr => (.error, k + 1)
    | .exited s => (.exited (translate_status s), k + 1)
    | .running => pty_wait_loop poll timeout_ms (elapsed + 10) (k + 1)
  else (.timeout, k)
termination_by (timeout_ms - elapsed).toNat
decreasing_by
  simp_wf
  omega

/-- The C function `pty_wait(pid, timeout_ms, out_status)`.  `bw` is the
oracle for the single blocking wait of infinite mode, `poll` the oracle
for the non-blocking polls of bounded mode.  The second component counts
the non-blocking polls performed. -/
def pty_wait (pid : Int) (timeout_ms : Int) (bw : BlockWait) (poll : Nat → WaitPoll) :
    WaitRet × Nat :=
  if timeout_ms < 0 then
    match bw with
    | .waitErr => (.error, 0)
    | .done s => (.exited (translate_status s), 0)
  else
    pty_wait_loop poll timeout_ms 0 0

theorem pty_wait_loop_eq (poll : Nat → WaitPoll) (t e : Int) (k : Nat) :
    pty_wait_loop poll t e k =
      if e < t then
        match poll k with
        | .pollErr => (.error, k + 1)
        | .exited s => (.exited (translate_status s), k + 1)
        | .running => pty_wait_loop poll t (e + 10) (k + 1)
      else (.timeout, k) := by
  conv_lhs => unfold pty_wait_loop

/-- If every poll inside the time bound reports the child still running,
the loop returns the timeout result after exactly `ceil((t - e)/10)` more
polls. -/
theorem pty_wait_loop_all_running (poll : Nat → WaitPoll) (t : Int) :
    ∀ (n : Nat) (e : Int) (k : Nat), (t - e).toNat ≤ n →
      (∀ j : Nat, e + 10 * (j : Int) < t → poll (k + j) = .running) →
      pty_wait_loop poll t e k = (.timeout, k + (((t - e).toNat + 9) / 10)) := by
  intro n
  induction n with
  | zero =>
    intro e k hn hrun
    rw [pty_wait_loop_eq]
    rw [if_neg (by omega)]
    have h0 : (t - e).toNat = 0 := by omega
    rw [h0]
    norm_num
  | succ n ih =>
    intro e k hn hrun
    rw [pty_wait_loop_eq]
    by_cases he : e < t
    · rw [if_pos he]
      have h0 : poll k = .running := by
        have := hrun 0 (by omega)
        simpa using this
      rw [h0]
      have hrec := ih (e + 10) (k + 1) (by omega) ?_
      · rw [hrec]
        have hd : (t - (e + 10)).toNat + 10 = (t - e).toNat ∨
            ((t - (e + 10)).toNat = 0 ∧ (t - e).toNat ≤ 10) := by omega
        rcases hd with hd | hd
        · have : (k + 1) + (((t - e).toNat - 10 + 9) / 10) = k + (((t - e).toNat + 9) / 10) := by
            omega
          rw [show (t - (e + 10)).toNat = (t - e).toNat - 10 by omega]
          rw [this]
        · rw [hd.1]
          have h1 : 1 ≤ (t - e).toNat := by omega
          have : (k + 1) + (0 + 9) / 10 = k + (((t - e).toNat + 9) / 10) := by omega
          rw [this]
      · intro j hj
        have := hrun (j + 1) (by push_cast; omega)
        have hidx : k + (j + 1) = k + 1 + j := by omega
        rw [hidx] at this
        exact this
    · rw [if_neg he]
      have h0 : (t - e).toNat = 0 := by omega
      rw [h0]
      norm_num

/-- The result the loop stops with when a poll reports something other
than "still running". -/
def pollStopRet : WaitPoll → WaitRet
  | .pollErr => .error
  | .exited s => .exited (translate_status s)
  | .running => .timeout

/-- If the polls at indices `k..k+m-1` report the child still running,
each within the bound, and poll `k+m` (also within the bound) reports
`r ≠ running`, the loop stops right there with `pollStopRet r` after
`m + 1` polls. -/
theorem pty_wait_loop_first_stop (poll : Nat → WaitPoll) (t : Int) (r : WaitPoll)
    (hr : r ≠ WaitPoll.running) :
    ∀ (m : Nat) (e : Int) (k : Nat),
      (∀ j : Nat, j < m → poll (k + j) = .running) →
      e + 10 * (m : Int) < t →
      poll (k + m) = r →
      pty_wait_loop poll t e k = (pollStopRet r, k + m + 1) := by
  intro m
  induction m with
  | zero =>
    intro e k hrun hlt hstop
    rw [pty_wait_loop_eq]
    rw [if_pos (by push_cast at hlt; omega)]
    have h0 : poll k = r := by simpa using hstop
    rw [h0]
    cases r with
    | pollErr => rfl
    | running => exact absurd rfl hr
    | exited s => rfl
  | succ m ih =>
    intro e k hrun hlt hstop
    rw [pty_wait_loop_eq]
    rw [if_pos (by push_cast at hlt; omega)]
    have h0 : poll k = .running := by
      have := hrun 0 (by omega)
      simpa using this
    rw [h0]
    have hrec := ih (e + 10) (k + 1) ?_ (by push_cast at hlt; omega) ?_
    · rw [hrec]
      have : k + 1 + m + 1 = k + (m + 1) + 1 := by omega
      rw [this]
    · intro j hj
      have := hrun (j + 1) (by omega)
      have hidx : k + (j + 1) = k + 1 + j := by omega
      rw [hidx] at this
      exact this
    · have hidx : k + (m + 1) = k + 1 + m := by omega
      rw [hidx] at hstop
      exact hstop

/-- C3: for every pid and every non-negative timeout, bounded `pty_wait`
polls non-blockingly at a fixed 10 ms interval accumulating elapsed time:
it returns success with the translated status as soon as a poll observes
termination, returns the distinguished timeout result (C return value 1)
once the accumulated time reaches the bound with no termination observed
(after exactly `ceil(timeout/10)` polls), and returns an error (C return
value -1) if any poll fails. -/
theorem C3_bounded_wait (pid : Int) (bw : BlockWait) (poll : Nat → WaitPoll)
    (timeout_ms : Int) (hpos : 0 ≤ timeout_ms) :
    ((∀ j : Nat, 10 * (j : Int) < timeout_ms → poll j = .running) →
       pty_wait pid timeout_ms bw poll = (.timeout, (timeout_ms.toNat + 9) / 10)
       ∧ WaitRet.timeout.retCode = 1)
    ∧ (∀ (m : Nat) (s : Nat), (∀ j : Nat, j < m → poll j = .running) →
         10 * (m : Int) < timeout_ms → poll m = .exited s →
         pty_wait pid timeout_ms bw poll = (.exited (translate_status s), m + 1)
         ∧ (WaitRet.exited (translate_status s)).retCode = 0)
    ∧ (∀ m : Nat, (∀ j : Nat, j < m → poll j = .running) →
         10 * (m : Int) < timeout_ms → poll m = .pollErr →
         pty_wait pid timeout_ms bw poll = (.error, m + 1)
         ∧ WaitRet.error.retCode = -1) := by
  have hnotneg : ¬ timeout_ms < 0 := by omega
  refine ⟨?_, ?_, ?_⟩
  · intro hrun
    rw [pty_wait.eq_def, if_neg hnotneg]
    refine ⟨?_, rfl⟩
    have h := pty_wait_loop_all_running poll timeout_ms timeout_ms.toNat 0 0
      (by omega) ?_
    · rw [h]
      have : timeout_ms - 0 = timeout_ms := by omega
      rw [this]
      norm_num
    · intro j hj
      have := hrun j (by omega)
      simpa using this
  · intro m s hrun hlt hstop
    rw [pty_wait.eq_def, if_neg hnotneg]
    refine ⟨?_, rfl⟩
    have h := pty_wait_loop_first_stop poll timeout_ms (.exited s) (by simp) m 0 0
      ?_ (by omega) (by simpa using hstop)
    · rw [h]
      simp [pollStopRet]
    · intro j hj
      simpa using hrun j hj
  · intro m hrun hlt hstop
    rw [pty_wait.eq_def, if_neg hnotneg]
    refine ⟨?_, rfl⟩
    have h := pty_wait_loop_first_stop poll timeout_ms .pollErr (by simp) m 0 0
      ?_ (by omega) (by simpa using hstop)
    · rw [h]
      simp [pollStopRet]
    · intro j hj
      simpa using hrun j hj

/-- Witness for C3: the three bounded-mode outcomes at concrete inputs:
a child that never terminates within a 25 ms bound (timeout after 3 polls),
one that terminates with raw status 0 at the second poll (success after 2
polls), and a failing first poll (error after 1 poll). -/
theorem C3_bounded_wait_witness :
    pty_wait 5 25 .waitErr (fun _ => .running) = (.timeout, 3)
    ∧ pty_wait 5 25 .waitErr (fun k => if k = 1 then .exited 0 else .running) =
        (.exited 0, 2)
    ∧ pty_wait 5 25 .waitErr (fun k => if k = 0 then .pollErr else .running) =
        (.error, 1) := by
  refine ⟨?_, ?_, ?_⟩
  · have h := (C3_bounded_wait 5 .waitErr (fun _ => .running) 25 (by norm_num)).1
      (fun j hj => rfl)
    simpa using h.1
  · have h := ((C3_bounded_wait 5 .waitErr
        (fun k => if k = 1 then .exited 0 else .running) 25 (by norm_num)).2.1 1 0
        (fun j hj => by interval_cases j; rfl) (by norm_num) rfl).1
    simpa [translate_status, WIFEXITED, WEXITSTATUS] using h
  · have h := ((C3_bounded_wait 5 .waitErr
        (fun k => if k = 0 then .pollErr else .running) 25 (by norm_num)).2.2 0
        (fun j hj => by omega) (by norm_num) rfl).1
    simpa using h

/-- C9: a `pty_wait` call with timeout exactly 0 returns the timeout
result without performing a single non-blocking poll, for every poll
oracle — in particular even when the very first poll would have reported
the child already terminated; the child is thus neither reaped nor its
exit code observable through such a call. -/
theorem C9_zero_timeout_no_poll (pid : Int) (bw : BlockWait) (poll : Nat → WaitPoll) :
    pty_wait pid 0 bw poll = (.timeout, 0) := by
  rw [pty_wait.eq_def, if_neg (by norm_num), pty_wait_loop_eq, if_neg (by norm_num)]

/-- C4: translation of every raw termination status, identically applied
in both modes: normal termination gives the process's own exit code
(0..255), signal termination gives 128 + the signal number, any other
status shape gives the sentinel -1; and in infinite mode (negative
timeout) a single blocking wait is issued (zero non-blocking polls), with
its failure reported as an error. -/
theorem C4_status_translation (s : Nat) (pid : Int) (poll : Nat → WaitPoll)
    (t : Int) (ht : t < 0) :
    (WIFEXITED s = true →
       translate_status s = (WEXITSTATUS s : Int)
       ∧ 0 ≤ translate_status s ∧ translate_status s ≤ 255)
    ∧ (WIFEXITED s = false → WIFSIGNALED s = true →
       translate_status s = 128 + (WTERMSIG s : Int))
    ∧ (WIFEXITED s = false → WIFSIGNALED s = false → translate_status s = -1)
    ∧ pty_wait pid t .waitErr poll = (.error, 0)
    ∧ pty_wait pid t (.done s) poll = (.exited (translate_status s), 0) := by
  refine ⟨?_, ?_, ?_, ?_, ?_⟩
  · intro hex
    rw [translate_status, if_pos hex]
    refine ⟨rfl, by positivity, ?_⟩
    have : WEXITSTATUS s < 256 := Nat.mod_lt _ (by norm_num)
    omega
  · intro hex hsig
    rw [translate_status, if_neg (by simp [hex]), if_pos hsig]
  · intro hex hsig
    rw [translate_status, if_neg (by simp [hex]), if_neg (by simp [hsig])]
  · rw [pty_wait.eq_def, if_pos ht]
  · rw [pty_wait.eq_def, if_pos ht]

/-- Witness for C4 at concrete raw statuses: status 256 is a normal exit
with code 1; status 9 is termination by signal 9 translated to 137;
status 127 is a stop status, translated to the sentinel -1; infinite mode
(-1) issues its single blocking wait. -/
theorem C4_status_translation_witness :
    translate_status 256 = ((WEXITSTATUS 256 : Nat) : Int)
    ∧ translate_status 9 = 128 + ((WTERMSIG 9 : Nat) : Int)
    ∧ translate_status 127 = -1
    ∧ pty_wait 7 (-1) .waitErr (fun _ => .running) = (.error, 0)
    ∧ pty_wait 7 (-1) (.done 9) (fun _ => .running) = (.exited (translate_status 9), 0) := by
  have h9 := C4_status_translation 9 7 (fun _ => .running) (-1) (by norm_num)
  have h256 := C4_status_translation 256 7 (fun _ => .running) (-1) (by norm_num)
  have h127 := C4_status_translation 127 7 (fun _ => .running) (-1) (by norm_num)
  exact ⟨(h256.1 (by decide)).1, h9.2.1 (by decide) (by decide),
    h127.2.2.1 (by decide) (by decide), h9.2.2.2.1, h9.2.2.2.2⟩

/-! ## Pair allocator (`pty_open`) and geometry updater (`pty_resize`) -/

/-- C conversion of a signed `int` to the `unsigned short` window-size
fields: reduction modulo 2^16. -/
def toU16 (x : Int) : Nat := (x % 65536).toNat

/-- The `struct winsize` pushed by `TIOCSWINSZ`. -/
structure WinSize where
  ws_row : Nat
  ws_col : Nat
  ws_xpixel : Nat
  ws_ypixel : Nat
deriving DecidableEq

/-- The OS calls `pty_open` can perform, in the order it performs them.
`setWinsz` carries the geometry delivered and the (ignored) ioctl result. -/
inductive OsCall where
  | openpt : OsCall
  | grantpt : OsCall
  | unlockpt : OsCall
  | ptsname : OsCall
  | closeFd (fd : Nat) : OsCall
  | setWinsz (fd : Nat) (ws : WinSize) (res : Int) : OsCall
deriving DecidableEq

/-- Oracle for the syscalls `pty_open` makes: each field is the outcome
the OS would give that call.  `closeErrno` is the errno value the cleanup
`close` would leave behind if it failed (the C code shields the reported
errno from it with the `saved_errno` pattern). -/
structure OpenEnv where
  openptRes : Except Nat Nat
  grantptErr : Option Nat
  unlockptErr : Option Nat
  ptsnameRes : Except Nat String
  closeErrno : Option Nat
  winszRes : Int

/-- Result of `pty_open`: C return value, errno on failure, what was
written through the two output pointers, and the OS calls performed. -/
structure OpenResult where
  ret : Int
  errno : Option Nat
  out_master_fd : Option Nat
  out_slave_name : Option String
  calls : List OsCall
deriving DecidableEq

/-- `strncpy(out, name, len - 1)` followed by `out[len - 1] = 0`:
the name truncated to `len - 1` characters. -/
def strncpy_trunc (len : Int) (s : String) : String := s.take (len - 1).toNat

/-- The C function `pty_open(out_master_fd, out_slave_name,
slave_name_len, width, height)`.  The two `Bool`s model nullness of the
output pointers.  Each failure branch repeats the C's
`saved_errno = errno; close(master_fd); errno = saved_errno` sequence:
the errno register is threaded through the (possibly failing) close and
then overwritten with the saved value. -/
def pty_open (out_master_null out_slave_null : Bool) (slave_name_len : Int)
    (width height : Int) (env : OpenEnv) : OpenResult :=
  if out_master_null || out_slave_null || slave_name_len < 256 then
    { ret := -1, errno := some EINVAL, out_master_fd := none,
      out_slave_name := none, calls := [] }
  else
    match env.openptRes with
    | .error e =>
      { ret := -1, errno := some e, out_master_fd := none,
        out_slave_name := none, calls := [.openpt] }
    | .ok master_fd =>
      match env.grantptErr with
      | some e =>
        let saved_errno := e
        let errno_after_close := env.closeErrno.getD saved_errno
        let errno_restored := saved_errno
        { ret := -1, errno := some errno_restored, out_master_fd := none,
          out_slave_name := none,
          calls := [.openpt, .grantpt, .closeFd master_fd] }
      | none =>
        match env.unlockptErr with
        | some e =>
          let saved_errno := e
          let errno_after_close := env.closeErrno.getD saved_errno
          let errno_restored := saved_errno
          { ret := -1, errno := some errno_restored, out_master_fd := none,
            out_slave_name := none,
            calls := [.openpt, .grantpt, .unlockpt, .closeFd master_fd] }
        | none =>
          match env.ptsnameRes with
          | .error e =>
            let saved_errno := e
            let errno_after_close := env.closeErrno.getD saved_errno
            let errno_restored := saved_errno
            { ret := -1, errno := some errno_restored, out_master_fd := none,
              out_slave_name := none,
              calls := [.openpt, .grantpt, .unlockpt, .ptsname, .closeFd master_fd] }
          | .ok slave_name =>
            let out_name := strncpy_trunc slave_name_len slave_name
            if 0 < width ∧ 0 < height then
              let ws : WinSize :=
                { ws_row := toU16 height, ws_col := toU16 width,
                  ws_xpixel := 0, ws_ypixel := 0 }
              { ret := 0, errno := none, out_master_fd := some master_fd,
                out_slave_name := some out_name,
                calls := [.openpt, .grantpt, .unlockpt, .ptsname,
                          .setWinsz master_fd ws env.winszRes] }
            else
              { ret := 0, errno := none, out_master_fd := some master_fd,
                out_slave_name := some out_name,
                calls := [.openpt, .grantpt, .unlockpt, .ptsname] }

/-- Result of `pty_resize`: the C return value (that of the ioctl) and
the `struct winsize` delivered to the kernel. -/
structure ResizeResult where
  ret : Int
  ws : WinSize
deriving DecidableEq

/-- The C function `pty_resize(master_fd, width, height)`; `ioctlRes` is
the outcome the OS gives the `TIOCSWINSZ` ioctl. -/
def pty_resize (master_fd : Int) (width height : Int) (ioctlRes : Int) : ResizeResult :=
  { ret := ioctlRes,
    ws := { ws_row := toU16 height, ws_col := toU16 width,
            ws_xpixel := 0, ws_ypixel := 0 } }

/-! ## Child spawner (`pty_spawn`)

The fork gives two continuations; the parent branch and the child branch
are embedded as two functions.  `pty_spawn_parent` is the value
`pty_spawn` itself returns (the child never returns from it: on success
its image is replaced, on failure it calls `_exit(127)`). -/

/-- Linux signal constants used by the handler-reset loop. -/
def NSIG : Nat := 65

def SIGKILL : Nat := 9

def SIGSTOP : Nat := 19

def STDIN_FILENO : Nat := 0

def STDOUT_FILENO : Nat := 1

def STDERR_FILENO : Nat := 2

/-- Nullness of the four pointer arguments `pty_spawn` checks. -/
structure SpawnArgsNull where
  pathNull : Bool
  argvNull : Bool
  slaveNull : Bool
  outPidNull : Bool
deriving DecidableEq

/-- All four checked pointers present. -/
def SpawnArgsNull.allPresent (a : SpawnArgsNull) : Prop :=
  a.pathNull = false ∧ a.argvNull = false ∧ a.slaveNull = false ∧ a.outPidNull = false

/-- Outcome of `fork()` as the parent sees it. -/
inductive ForkRes where
  | fail (errno : Nat) : ForkRes
  | ok (pid : Nat) : ForkRes
deriving DecidableEq

/-- Oracle for the parent branch: the fork outcome, and the errno value
the mask-restoring `pthread_sigmask` would leave behind if it set one
(the C code shields the reported errno from it with `saved_errno`). -/
structure SpawnParentEnv where
  fork : ForkRes
  restoreErrno : Option Nat
deriving DecidableEq

/-- The signal-mask-relevant actions of the parent branch, in order. -/
inductive ParentEvent where
  | blockAllSignals : ParentEvent
  | forkCall : ParentEvent
  | restoreMask : ParentEvent
deriving DecidableEq

/-- The signal mask as a two-point abstraction: the caller's saved mask
or the all-blocked mask installed before fork. -/
inductive Mask where
  | old : Mask
  | allBlocked : Mask
deriving DecidableEq

/-- The mask installed after a sequence of parent events, starting from
the caller's mask. -/
def maskAfter (events : List ParentEvent) : Mask :=
  events.foldl
    (fun m e =>
      match e with
      | .blockAllSignals => .allBlocked
      | .restoreMask => .old
      | .forkCall => m)
    .old

/-- Result of `pty_spawn` in the parent: C return value, errno on
failure, what was written through `out_pid`, and the parent events. -/
structure ParentResult where
  ret : Int
  errno : Option Nat
  out_pid : Option Nat
  trace : List ParentEvent
deriving DecidableEq

/-- The parent-side control flow of `pty_spawn(path, argv, envp,
slave_name, working_dir, out_pid)`.  The fork-failure branch repeats the
C's `saved_errno = errno; pthread_sigmask(...); errno = saved_errno`
sequence: the errno register is threaded through the restore call and
then overwritten with the saved value. -/
def pty_spawn_parent (a : SpawnArgsNull) (env : SpawnParentEnv) : ParentResult :=
  if a.pathNull || a.argvNull || a.slaveNull || a.outPidNull then
    { ret := -1, errno := some EINVAL, out_pid := none, trace := [] }
  else
    match env.fork with
    | .fail e =>
      let saved_errno := e
      let errno_after_restore := env.restoreErrno.getD saved_errno
      let errno_restored := saved_errno
      { ret := -1, errno := some errno_restored, out_pid := none,
        trace := [.blockAllSignals, .forkCall, .restoreMask] }
    | .ok pid =>
      { ret := 0, errno := none, out_pid := some pid,
        trace := [.blockAllSignals, .forkCall, .restoreMask] }

/-- Oracle for the child branch: the outcome of each syscall the child
performs between fork and image replacement.  `execveReturns = true`
means `execve` failed (it returned). -/
structure ChildEnv where
  setsidOk : Bool
  openSlaveRes : Option Nat
  ioctlNoForceOk : Bool
  ioctlForceOk : Bool
  dup2StdinOk : Bool
  dup2StdoutOk : Bool
  dup2StderrOk : Bool
  chdirOk : Bool
  execveReturns : Bool
deriving DecidableEq

/-- The actions of the child branch, in the order the code performs
them.  `ioctlSetCtty` and `chdirCall` carry the outcome the OS gave
them (the code ignores it); `execveCall` records whether the process
environment was inherited (`envp == NULL`). -/
inductive ChildEvent where
  | restoreMask : ChildEvent
  | resetHandler (sig : Nat) : ChildEvent
  | setsidCall : ChildEvent
  | openSlaveCall : ChildEvent
  | ioctlSetCtty (force : Bool) (ok : Bool) : ChildEvent
  | dup2Call (oldfd newfd : Nat) : ChildEvent
  | closeCall (fd : Nat) : ChildEvent
  | chdirCall (ok : Bool) : ChildEvent
  | execveCall (inheritEnv : Bool) : ChildEvent
deriving DecidableEq

/-- How the child branch ends: its image replaced by `execve`, or
`_exit` with the given code. -/
inductive ChildFate where
  | execed : ChildFate
  | exited (code : Nat) : ChildFate
deriving DecidableEq

/-- The handler-reset loop
`for (sig = 1; sig < NSIG; sig++) { if (sig == SIGKILL || sig == SIGSTOP) continue; sigaction(sig, &sa_default, NULL); }`
as the list of reset events it performs. -/
def resetHandlerEvents : List ChildEvent :=
  (List.range NSIG).filterMap
    (fun sig =>
      if 1 ≤ sig ∧ sig ≠ SIGKILL ∧ sig ≠ SIGSTOP then some (.resetHandler sig)
      else none)

/-- The child-side control flow of `pty_spawn`, from right after
`fork()` returned 0 to its end, producing the child's fate and the
events it performed in order. -/
def pty_spawn_child (working_dir : Option String) (envpNull : Bool) (env : ChildEnv) :
    ChildFate × List ChildEvent :=
  let t0 : List ChildEvent :=
    ChildEvent.restoreMask :: resetHandlerEvents ++ [ChildEvent.setsidCall]
  if env.setsidOk = false then (.exited 127, t0)
  else
    let t1 := t0 ++ [ChildEvent.openSlaveCall]
    match env.openSlaveRes with
    | none => (.exited 127, t1)
    | some slave_fd =>
      let t2 := t1 ++
        (if env.ioctlNoForceOk then [ChildEvent.ioctlSetCtty false true]
         else [ChildEvent.ioctlSetCtty false false,
               ChildEvent.ioctlSetCtty true env.ioctlForceOk])
      let t3 := t2 ++ [ChildEvent.dup2Call slave_fd STDIN_FILENO]
      if env.dup2StdinOk = false then (.exited 127, t3)
      else
        let t4 := t3 ++ [ChildEvent.dup2Call slave_fd STDOUT_FILENO]
        if env.dup2StdoutOk = false then (.exited 127, t4)
        else
          let t5 := t4 ++ [ChildEvent.dup2Call slave_fd STDERR_FILENO]
          if env.dup2StderrOk = false then (.exited 127, t5)
          else
            let t6 := t5 ++
              (if STDERR_FILENO < slave_fd then [ChildEvent.closeCall slave_fd] else [])
            let t7 := t6 ++
              (match working_dir with
               | some d => if d ≠ "" then [ChildEvent.chdirCall env.chdirOk] else []
               | none => [])
            let t8 := t7 ++ [ChildEvent.execveCall envpNull]
            if env.execveReturns then (.exited 127, t8) else (.execed, t8)

/-- Every child execution begins with the mask restore, then the whole
handler-reset loop, then the `setsid` call, whatever the oracle says. -/
theorem pty_spawn_child_trace_shape (working_dir : Option String) (envpNull : Bool)
    (env : ChildEnv) :
    ∃ rest, (pty_spawn_child working_dir envpNull env).2 =
      ChildEvent.restoreMask :: (resetHandlerEvents ++ (ChildEvent.setsidCall :: rest)) := by
  obtain ⟨s, o, i1, i2, d0, d1, d2, c, ex⟩ := env
  cases s <;> cases o <;> cases d0 <;> cases d1 <;> cases d2 <;> cases ex <;>
    exact ⟨_, rfl⟩

/-- The child's fate is `execed` exactly when every fatal step
succeeded; every other child execution ends in `_exit(127)`. -/
theorem pty_spawn_child_fate (working_dir : Option String) (envpNull : Bool)
    (env : ChildEnv) :
    ((pty_spawn_child working_dir envpNull env).1 = .execed ↔
      (env.setsidOk = true ∧ (∃ fd, env.openSlaveRes = some fd)
       ∧ env.dup2StdinOk = true ∧ env.dup2StdoutOk = true ∧ env.dup2StderrOk = true
       ∧ env.execveReturns = false))
    ∧ ((pty_spawn_child working_dir envpNull env).1 = .execed
       ∨ (pty_spawn_child working_dir envpNull env).1 = .exited 127) := by
  obtain ⟨s, o, i1, i2, d0, d1, d2, c, ex⟩ := env
  cases s <;> cases o <;> cases d0 <;> cases d1 <;> cases d2 <;> cases ex <;>
    simp [pty_spawn_child]

/-- C1: `pty_spawn` returns an error exactly for failures before fork
(a null pointer argument or fork itself failing); after a successful
fork, the failure of any fatal child-side step (setsid, opening the
slave, any of the three dup2 calls, or execve returning) terminates the
child with exit code 127 and is never a return value of `pty_spawn`,
while the forced controlling-terminal fallback and the working-directory
change are the only child-side steps whose failure is non-fatal (the
child's fate is `execed` for every outcome of those steps once the fatal
steps succeed). -/
theorem C1_error_reporting :
    (∀ (a : SpawnArgsNull) (env : SpawnParentEnv),
       ((pty_spawn_parent a env).ret = -1 ↔
         ((a.pathNull = true ∨ a.argvNull = true ∨ a.slaveNull = true
           ∨ a.outPidNull = true)
          ∨ ∃ e, env.fork = .fail e)))
    ∧ (∀ (working_dir : Option String) (envpNull : Bool) (env : ChildEnv),
       (env.setsidOk = false ∨ env.openSlaveRes = none ∨ env.dup2StdinOk = false
        ∨ env.dup2StdoutOk = false ∨ env.dup2StderrOk = false
        ∨ env.execveReturns = true) →
       (pty_spawn_child working_dir envpNull env).1 = .exited 127)
    ∧ (∀ (working_dir : Option String) (envpNull : Bool) (env : ChildEnv) (fd : Nat),
       env.setsidOk = true → env.openSlaveRes = some fd → env.dup2StdinOk = true →
       env.dup2StdoutOk = true → env.dup2StderrOk = true → env.execveReturns = false →
       (pty_spawn_child working_dir envpNull env).1 = .execed) := by
  refine ⟨?_, ?_, ?_⟩
  · intro a env
    obtain ⟨p, g, sl, op⟩ := a
    obtain ⟨fk, re⟩ := env
    cases p <;> cases g <;> cases sl <;> cases op <;> cases fk <;>
      simp [pty_spawn_parent]
  · intro working_dir envpNull env h
    rcases (pty_spawn_child_fate working_dir envpNull env).2 with hf | hf
    · exfalso
      have hall := (pty_spawn_child_fate working_dir envpNull env).1.mp hf
      rcases h with h | h | h | h | h | h <;> simp_all
    · exact hf
  · intro working_dir envpNull env fd h1 h2 h3 h4 h5 h6
    exact (pty_spawn_child_fate working_dir envpNull env).1.mpr
      ⟨h1, ⟨fd, h2⟩, h3, h4, h5, h6⟩

/-- Witness for C1 at concrete inputs: with all pointers present, a
failing fork is an error return; with a successful fork, a child whose
execve returns exits 127 while a child whose only failures are the
controlling-terminal ioctls and chdir still reaches `execed`. -/
theorem C1_error_reporting_witness :
    ((pty_spawn_parent
        { pathNull := false, argvNull := false, slaveNull := false, outPidNull := false }
        { fork := .fail 11, restoreErrno := none }).ret = -1)
    ∧ ((pty_spawn_child (some "/tmp") false
        { setsidOk := true, openSlaveRes := some 3, ioctlNoForceOk := true,
          ioctlForceOk := true, dup2StdinOk := true, dup2StdoutOk := true,
          dup2StderrOk := true, chdirOk := true, execveReturns := true }).1
      = .exited 127)
    ∧ ((pty_spawn_child (some "/tmp") false
        { setsidOk := true, openSlaveRes := some 3, ioctlNoForceOk := false,
          ioctlForceOk := false, dup2StdinOk := true, dup2StdoutOk := true,
          dup2StderrOk := true, chdirOk := false, execveReturns := false }).1
      = .execed) := by
  refine ⟨?_, ?_, ?_⟩
  · exact (C1_error_reporting.1
      { pathNull := false, argvNull := false, slaveNull := false, outPidNull := false }
      { fork := .fail 11, restoreErrno := none }).mpr (Or.inr ⟨11, rfl⟩)
  · exact C1_error_reporting.2.1 (some "/tmp") false
      { setsidOk := true, openSlaveRes := some 3, ioctlNoForceOk := true,
        ioctlForceOk := true, dup2StdinOk := true, dup2StdoutOk := true,
        dup2StderrOk := true, chdirOk := true, execveReturns := true }
      (by simp)
  · exact C1_error_reporting.2.2 (some "/tmp") false
      { setsidOk := true, openSlaveRes := some 3, ioctlNoForceOk := false,
        ioctlForceOk := false, dup2StdinOk := true, dup2StdoutOk := true,
        dup2StderrOk := true, chdirOk := false, execveReturns := false }
      3 rfl rfl rfl rfl rfl rfl

/-- C2, evaluated against the code: in every child execution the signal
mask restore is the child's FIRST action and the whole handler-reset
loop runs strictly after it (the claim asserts the opposite order:
handlers reset before any signal can be re-enabled).  The last conjunct
checks that the reset loop does cover every signal 1..NSIG-1 except
SIGKILL and SIGSTOP. -/
theorem C2_restore_precedes_handler_reset (working_dir : Option String)
    (envpNull : Bool) (env : ChildEnv) :
    (∃ rest, (pty_spawn_child working_dir envpNull env).2 =
      ChildEvent.restoreMask :: (resetHandlerEvents ++ rest))
    ∧ (∀ sig : Nat, 1 ≤ sig → sig < NSIG → sig ≠ SIGKILL → sig ≠ SIGSTOP →
        ChildEvent.resetHandler sig ∈ resetHandlerEvents) := by
  constructor
  · obtain ⟨rest, hr⟩ := pty_spawn_child_trace_shape working_dir envpNull env
    exact ⟨ChildEvent.setsidCall :: rest, hr⟩
  · intro sig h1 h2 h3 h4
    rw [resetHandlerEvents]
    refine List.mem_filterMap.mpr ⟨sig, List.mem_range.mpr h2, ?_⟩
    rw [if_pos ⟨h1, h3, h4⟩]

/-- C6: the all-blocked mask installed before fork is restored on every
exit path of both branches: on fork failure (with the fork errno
preserved across the restore, whatever errno that restore would set), on
the parent success path before the pid is returned, and in the child as
its first action before any setup step; no path leaves the all-blocked
mask installed. -/
theorem C6_mask_restored_every_path :
    (∀ (a : SpawnArgsNull) (env : SpawnParentEnv),
       maskAfter (pty_spawn_parent a env).trace = Mask.old)
    ∧ (∀ (a : SpawnArgsNull) (e : Nat) (r : Option Nat), a.allPresent →
       (pty_spawn_parent a { fork := .fail e, restoreErrno := r }).errno = some e
       ∧ (pty_spawn_parent a { fork := .fail e, restoreErrno := r }).trace
           = [.blockAllSignals, .forkCall, .restoreMask])
    ∧ (∀ (a : SpawnArgsNull) (pid : Nat) (r : Option Nat), a.allPresent →
       (pty_spawn_parent a { fork := .ok pid, restoreErrno := r }).out_pid = some pid
       ∧ (pty_spawn_parent a { fork := .ok pid, restoreErrno := r }).trace
           = [.blockAllSignals, .forkCall, .restoreMask])
    ∧ (∀ (working_dir : Option String) (envpNull : Bool) (cenv : ChildEnv),
       (pty_spawn_child working_dir envpNull cenv).2.head? = some ChildEvent.restoreMask) := by
  refine ⟨?_, ?_, ?_, ?_⟩
  · intro a env
    obtain ⟨p, g, sl, op⟩ := a
    obtain ⟨fk, re⟩ := env
    cases p <;> cases g <;> cases sl <;> cases op <;> cases fk <;>
      simp [pty_spawn_parent, maskAfter]
  · rintro ⟨p, g, sl, op⟩ e r ⟨h1, h2, h3, h4⟩
    simp only at h1 h2 h3 h4
    subst h1 h2 h3 h4
    exact ⟨rfl, rfl⟩
  · rintro ⟨p, g, sl, op⟩ pid r ⟨h1, h2, h3, h4⟩
    simp only at h1 h2 h3 h4
    subst h1 h2 h3 h4
    exact ⟨rfl, rfl⟩
  · intro working_dir envpNull cenv
    obtain ⟨rest, hr⟩ := pty_spawn_child_trace_shape working_dir envpNull cenv
    rw [hr]
    rfl

/-- Witness for C6 at concrete inputs: with all pointers present, a
fork failing with errno 11 reports errno 11 after the balanced
block/fork/restore sequence, a successful fork writes pid 42 after the
same sequence, and a concrete child run starts with the mask restore. -/
theorem C6_mask_restored_every_path_witness :
    maskAfter (pty_spawn_parent
        { pathNull := false, argvNull := false, slaveNull := false, outPidNull := false }
        { fork := .fail 11, restoreErrno := some 4 }).trace = Mask.old
    ∧ (pty_spawn_parent
        { pathNull := false, argvNull := false, slaveNull := false, outPidNull := false }
        { fork := .fail 11, restoreErrno := some 4 }).errno = some 11
    ∧ (pty_spawn_parent
        { pathNull := false, argvNull := false, slaveNull := false, outPidNull := false }
        { fork := .ok 42, restoreErrno := none }).out_pid = some 42
    ∧ (pty_spawn_child none true
        { setsidOk := true, openSlaveRes := some 3, ioctlNoForceOk := true,
          ioctlForceOk := true, dup2StdinOk := true, dup2StdoutOk := true,
          dup2StderrOk := true, chdirOk := true, execveReturns := false }).2.head?
      = some ChildEvent.restoreMask := by
  refine ⟨?_, ?_, ?_, ?_⟩
  · exact C6_mask_restored_every_path.1
      { pathNull := false, argvNull := false, slaveNull := false, outPidNull := false }
      { fork := .fail 11, restoreErrno := some 4 }
  · exact (C6_mask_restored_every_path.2.1
      { pathNull := false, argvNull := false, slaveNull := false, outPidNull := false }
      11 (some 4) ⟨rfl, rfl, rfl, rfl⟩).1
  · exact (C6_mask_restored_every_path.2.2.1
      { pathNull := false, argvNull := false, slaveNull := false, outPidNull := false }
      42 none ⟨rfl, rfl, rfl, rfl⟩).1
  · exact C6_mask_restored_every_path.2.2.2 none true
      { setsidOk := true, openSlaveRes := some 3, ioctlNoForceOk := true,
        ioctlForceOk := true, dup2StdinOk := true, dup2StdoutOk := true,
        dup2StderrOk := true, chdirOk := true, execveReturns := false }

/-- C7: the InvalidArgument precondition violations are checked
synchronously and return EINVAL with all OS state untouched:
`pty_spawn` rejects a null executable path, argument vector or slave
identifier before performing any OS call, and `pty_open` rejects a
slave-name buffer capacity below 256 bytes without opening any
descriptor. -/
theorem C7_invalid_argument_before_os :
    (∀ (a : SpawnArgsNull) (env : SpawnParentEnv),
       (a.pathNull = true ∨ a.argvNull = true ∨ a.slaveNull = true) →
       (pty_spawn_parent a env).ret = -1
       ∧ (pty_spawn_parent a env).errno = some EINVAL
       ∧ (pty_spawn_parent a env).trace = [])
    ∧ (∀ (out_master_null out_slave_null : Bool) (len w h : Int) (env : OpenEnv),
       len < 256 →
       (pty_open out_master_null out_slave_null len w h env).ret = -1
       ∧ (pty_open out_master_null out_slave_null len w h env).errno = some EINVAL
       ∧ (pty_open out_master_null out_slave_null len w h env).calls = []) := by
  constructor
  · intro a env h
    have hcond : (a.pathNull || a.argvNull || a.slaveNull || a.outPidNull) = true := by
      rcases h with h | h | h <;> simp [h]
    simp [pty_spawn_parent, hcond]
  · intro out_master_null out_slave_null len w h env hlen
    simp [pty_open, hlen]

/-- Witness for C7 at concrete inputs: a null argv is rejected with
EINVAL and an empty parent trace, and a 128-byte slave-name buffer is
rejected with EINVAL and no OS calls. -/
theorem C7_invalid_argument_before_os_witness :
    ((pty_spawn_parent
        { pathNull := false, argvNull := true, slaveNull := false, outPidNull := false }
        { fork := .ok 42, restoreErrno := none }).errno = some EINVAL)
    ∧ ((pty_spawn_parent
        { pathNull := false, argvNull := true, slaveNull := false, outPidNull := false }
        { fork := .ok 42, restoreErrno := none }).trace = [])
    ∧ ((pty_open false false 128 80 24
        { openptRes := .ok 5, grantptErr := none, unlockptErr := none,
          ptsnameRes := .ok "/dev/pts/3", closeErrno := none, winszRes := 0 }).errno
      = some EINVAL)
    ∧ ((pty_open false false 128 80 24
        { openptRes := .ok 5, grantptErr := none, unlockptErr := none,
          ptsnameRes := .ok "/dev/pts/3", closeErrno := none, winszRes := 0 }).calls
      = []) := by
  have h1 := C7_invalid_argument_before_os.1
    { pathNull := false, argvNull := true, slaveNull := false, outPidNull := false }
    { fork := .ok 42, restoreErrno := none } (Or.inr (Or.inl rfl))
  have h2 := C7_invalid_argument_before_os.2 false false 128 80 24
    { openptRes := .ok 5, grantptErr := none, unlockptErr := none,
      ptsnameRes := .ok "/dev/pts/3", closeErrno := none, winszRes := 0 }
    (by norm_num)
  exact ⟨h1.2.1, h1.2.2, h2.2.1, h2.2.2⟩

/-- C5: every failing `pty_open` execution after the master endpoint was
opened (grantpt, unlockpt, or ptsname failure) closes the master
descriptor, reports the originating OS error code (preserved across the
cleanup close whatever errno that close would set), never writes the
caller's master-handle output, and returns no partial PtyPair (the slave
name output is not written either). -/
theorem C5_open_failure_cleanup (slave_name_len width height : Int) (env : OpenEnv)
    (master_fd : Nat) (hlen : 256 ≤ slave_name_len)
    (hopen : env.openptRes = .ok master_fd) :
    (∀ e, env.grantptErr = some e →
       (pty_open false false slave_name_len width height env).ret = -1
       ∧ (pty_open false false slave_name_len width height env).errno = some e
       ∧ (pty_open false false slave_name_len width height env).out_master_fd = none
       ∧ (pty_open false false slave_name_len width height env).out_slave_name = none
       ∧ OsCall.closeFd master_fd ∈ (pty_open false false slave_name_len width height env).calls)
    ∧ (∀ e, env.grantptErr = none → env.unlockptErr = some e →
       (pty_open false false slave_name_len width height env).ret = -1
       ∧ (pty_open false false slave_name_len width height env).errno = some e
       ∧ (pty_open false false slave_name_len width height env).out_master_fd = none
       ∧ (pty_open false false slave_name_len width height env).out_slave_name = none
       ∧ OsCall.closeFd master_fd ∈ (pty_open false false slave_name_len width height env).calls)
    ∧ (∀ e, env.grantptErr = none → env.unlockptErr = none → env.ptsnameRes = .error e →
       (pty_open false false slave_name_len width height env).ret = -1
       ∧ (pty_open false false slave_name_len width height env).errno = some e
       ∧ (pty_open false false slave_name_len width height env).out_master_fd = none
       ∧ (pty_open false false slave_name_len width height env).out_slave_name = none
       ∧ OsCall.closeFd master_fd ∈ (pty_open false false slave_name_len width height env).calls) := by
  have hlt : ¬ slave_name_len < 256 := by omega
  refine ⟨?_, ?_, ?_⟩
  · intro e hg
    simp [pty_open, hlt, hopen, hg]
  · intro e hg hu
    simp [pty_open, hlt, hopen, hg, hu]
  · intro e hg hu hp
    simp [pty_open, hlt, hopen, hg, hu, hp]

/-- Witness for C5 at concrete inputs: master fd 5 opened, then the three
failure points each with a distinct errno (13, 1, 2), a cleanup close
that would itself clobber errno with 9, and every outcome as C5 states. -/
theorem C5_open_failure_cleanup_witness :
    ((pty_open false false 256 80 24
        { openptRes := .ok 5, grantptErr := some 13, unlockptErr := none,
          ptsnameRes := .ok "/dev/pts/3", closeErrno := some 9, winszRes := 0 }).errno
      = some 13)
    ∧ ((pty_open false false 256 80 24
        { openptRes := .ok 5, grantptErr := none, unlockptErr := some 1,
          ptsnameRes := .ok "/dev/pts/3", closeErrno := some 9, winszRes := 0 }).errno
      = some 1)
    ∧ ((pty_open false false 256 80 24
        { openptRes := .ok 5, grantptErr := none, unlockptErr := none,
          ptsnameRes := .error 2, closeErrno := some 9, winszRes := 0 }).calls
      = [.openpt, .grantpt, .unlockpt, .ptsname, .closeFd 5]) := by
  refine ⟨?_, ?_, ?_⟩
  · exact ((C5_open_failure_cleanup 256 80 24
      { openptRes := .ok 5, grantptErr := some 13, unlockptErr := none,
        ptsnameRes := .ok "/dev/pts/3", closeErrno := some 9, winszRes := 0 } 5
      (by norm_num) rfl).1 13 rfl).2.1
  · exact ((C5_open_failure_cleanup 256 80 24
      { openptRes := .ok 5, grantptErr := none, unlockptErr := some 1,
        ptsnameRes := .ok "/dev/pts/3", closeErrno := some 9, winszRes := 0 } 5
      (by norm_num) rfl).2.1 1 rfl rfl).2.1
  · have h := ((C5_open_failure_cleanup 256 80 24
      { openptRes := .ok 5, grantptErr := none, unlockptErr := none,
        ptsnameRes := .error 2, closeErrno := some 9, winszRes := 0 } 5
      (by norm_num) rfl).2.2 2 rfl rfl rfl).2.2.2.2
    revert h
    decide

/-- C8: on every successful `pty_open` run, the initial geometry is
pushed to the master before returning exactly when both dimensions are
strictly positive; when either dimension is zero or negative the push is
silently skipped and the call still succeeds — and the push's own ioctl
outcome is ignored (success for every `winszRes`). -/
theorem C8_geometry_push_iff (slave_name_len width height : Int) (env : OpenEnv)
    (master_fd : Nat) (slave_name : String) (hlen : 256 ≤ slave_name_len)
    (hopen : env.openptRes = .ok master_fd) (hgrant : env.grantptErr = none)
    (hunlock : env.unlockptErr = none) (hpts : env.ptsnameRes = .ok slave_name) :
    (pty_open false false slave_name_len width height env).ret = 0
    ∧ (0 < width ∧ 0 < height →
        (pty_open false false slave_name_len width height env).calls =
          [.openpt, .grantpt, .unlockpt, .ptsname,
           .setWinsz master_fd
             { ws_row := toU16 height, ws_col := toU16 width,
               ws_xpixel := 0, ws_ypixel := 0 } env.winszRes])
    ∧ (¬ (0 < width ∧ 0 < height) →
        (pty_open false false slave_name_len width height env).calls =
          [.openpt, .grantpt, .unlockpt, .ptsname]) := by
  have hlt : ¬ slave_name_len < 256 := by omega
  by_cases hwh : 0 < width ∧ 0 < height
  · refine ⟨?_, fun _ => ?_, fun h => absurd hwh h⟩ <;>
      simp [pty_open, hlt, hopen, hgrant, hunlock, hpts, hwh]
  · refine ⟨?_, fun h => absurd h hwh, fun _ => ?_⟩ <;>
      simp [pty_open, hlt, hopen, hgrant, hunlock, hpts, hwh]

/-- Witness for C8 at concrete inputs: a successful allocation at
80x24 pushes the geometry (even though the ioctl itself would fail,
`winszRes = -1`), and one at width 0 skips the push; both succeed. -/
theorem C8_geometry_push_iff_witness :
    ((pty_open false false 256 80 24
        { openptRes := .ok 5, grantptErr := none, unlockptErr := none,
          ptsnameRes := .ok "/dev/pts/3", closeErrno := none, winszRes := -1 }).calls
      = [.openpt, .grantpt, .unlockpt, .ptsname,
         .setWinsz 5 { ws_row := 24, ws_col := 80, ws_xpixel := 0, ws_ypixel := 0 } (-1)])
    ∧ ((pty_open false false 256 0 24
        { openptRes := .ok 5, grantptErr := none, unlockptErr := none,
          ptsnameRes := .ok "/dev/pts/3", closeErrno := none, winszRes := -1 }).calls
      = [.openpt, .grantpt, .unlockpt, .ptsname])
    ∧ ((pty_open false false 256 0 24
        { openptRes := .ok 5, grantptErr := none, unlockptErr := none,
          ptsnameRes := .ok "/dev/pts/3", closeErrno := none, winszRes := -1 }).ret = 0) := by
  have h1 := C8_geometry_push_iff 256 80 24
      { openptRes := .ok 5, grantptErr := none, unlockptErr := none,
        ptsnameRes := .ok "/dev/pts/3", closeErrno := none, winszRes := -1 } 5
      "/dev/pts/3" (by norm_num) rfl rfl rfl rfl
  have h2 := C8_geometry_push_iff 256 0 24
      { openptRes := .ok 5, grantptErr := none, unlockptErr := none,
        ptsnameRes := .ok "/dev/pts/3", closeErrno := none, winszRes := -1 } 5
      "/dev/pts/3" (by norm_num) rfl rfl rfl rfl
  refine ⟨?_, h2.2.2 (by norm_num), h2.1⟩
  have := h1.2.1 ⟨by norm_num, by norm_num⟩
  simpa [toU16] using this

/-- C10: both `pty_resize` and `pty_open`'s initial geometry push store
the full-width signed column and row counts into 16-bit window-size
fields: the geometry delivered equals the argument reduced modulo 2^16
(in particular 65536 columns are delivered as 0), and the pixel fields
are always zero. -/
theorem C10_geometry_mod_65536 (master_fd width height ioctlRes : Int)
    (slave_name_len w h : Int) (env : OpenEnv) (fd : Nat) (slave_name : String)
    (hlen : 256 ≤ slave_name_len) (hopen : env.openptRes = .ok fd)
    (hgrant : env.grantptErr = none) (hunlock : env.unlockptErr = none)
    (hpts : env.ptsnameRes = .ok slave_name) (hw : 0 < w) (hh : 0 < h) :
    ((pty_resize master_fd width height ioctlRes).ws =
      { ws_row := toU16 height, ws_col := toU16 width, ws_xpixel := 0, ws_ypixel := 0 })
    ∧ ((toU16 width : Int) % 65536 = width % 65536 ∧ toU16 width < 65536)
    ∧ ((toU16 height : Int) % 65536 = height % 65536 ∧ toU16 height < 65536)
    ∧ toU16 65536 = 0
    ∧ (pty_resize master_fd width height ioctlRes).ret = ioctlRes
    ∧ OsCall.setWinsz fd
        { ws_row := toU16 h, ws_col := toU16 w, ws_xpixel := 0, ws_ypixel := 0 }
        env.winszRes ∈ (pty_open false false slave_name_len w h env).calls := by
  have hlt : ¬ slave_name_len < 256 := by omega
  have hmod : ∀ x : Int, ((toU16 x : Int) % 65536 = x % 65536 ∧ toU16 x < 65536) := by
    intro x
    have h1 : (0 : Int) ≤ x % 65536 := Int.emod_nonneg x (by norm_num)
    have h2 : x % 65536 < 65536 := Int.emod_lt_of_pos x (by norm_num)
    constructor
    · rw [toU16, Int.toNat_of_nonneg h1, Int.emod_emod_of_dvd]
      exact dvd_refl _
    · rw [toU16]
      omega
  refine ⟨rfl, hmod width, hmod height, by decide, rfl, ?_⟩
  simp [pty_open, hlt, hopen, hgrant, hunlock, hpts, hw, hh]

/-- Witness for C10 at concrete inputs: a resize to 65536 columns and
65537 rows delivers 0 columns and 1 row with zero pixel fields, and a
concrete successful `pty_open` at 80x24 pushes its geometry. -/
theorem C10_geometry_mod_65536_witness :
    ((pty_resize 5 65536 65537 0).ws =
      { ws_row := 1, ws_col := 0, ws_xpixel := 0, ws_ypixel := 0 })
    ∧ toU16 65536 = 0
    ∧ OsCall.setWinsz 5
        { ws_row := toU16 24, ws_col := toU16 80, ws_xpixel := 0, ws_ypixel := 0 } 7
        ∈ (pty_open false false 256 80 24
            { openptRes := .ok 5, grantptErr := none, unlockptErr := none,
              ptsnameRes := .ok "/dev/pts/3", closeErrno := none, winszRes := 7 }).calls := by
  have h := C10_geometry_mod_65536 5 65536 65537 0 256 80 24
      { openptRes := .ok 5, grantptErr := none, unlockptErr := none,
        ptsnameRes := .ok "/dev/pts/3", closeErrno := none, winszRes := 7 } 5
      "/dev/pts/3" (by norm_num) rfl rfl rfl rfl (by norm_num) (by norm_num)
  refine ⟨?_, h.2.2.2.1, h.2.2.2.2.2⟩
  rw [h.1]
  decide

end PtySpawn
